import Mathlib

/-!
Verification of the VOYO track-classification engine
(`scripts/canonizer_v4.py` and the legacy `scripts/canonizer.py`).

The Python source is shallowly embedded below: curated constant tables are
transcribed verbatim, Python string containment (`needle in haystack`) is
modelled by an executable substring test over the character list, Python
numeric scores (floats holding small integers and exact averages) are
modelled by `ℚ`, and Python's `round(x, 2)` is modelled by round-half-to-even
over `ℚ` (binary floating-point representation error is abstracted away).
Fields of the result records that no property below mentions
(`release_year` / `era`, regex based, and wall-clock timestamps) are omitted.
-/

/-! ## Python string primitives -/

/-- Python `str.lower()` (per-character lowering). -/
def pyLower (s : String) : String := String.mk (s.data.map Char.toLower)

/-- Does `hay` start with `needle`? (character-list level). -/
def listStarts : List Char → List Char → Bool
  | [], _ => true
  | _ :: _, [] => false
  | a :: as, b :: bs => a == b && listStarts as bs

/-- Does `needle` occur as a contiguous substring of `hay`?
Mirrors Python's `needle in hay` for strings (the empty needle matches). -/
def listHasSub (needle : List Char) : List Char → Bool
  | [] => listStarts needle []
  | b :: bs => listStarts needle (b :: bs) || listHasSub needle bs

/-- Python `needle in hay` on strings. -/
def strIn (needle hay : String) : Bool := listHasSub needle.data hay.data

/-- `any(ind in text for ind in inds)`. -/
def containsAny (text : String) (inds : List String) : Bool :=
  inds.any (fun ind => strIn ind text)

theorem listStarts_append (n h r : List Char) (hs : listStarts n h = true) :
    listStarts n (h ++ r) = true := by
  induction n generalizing h with
  | nil => simp [listStarts]
  | cons a as ih =>
    cases h with
    | nil => simp [listStarts] at hs
    | cons b bs =>
      simp only [listStarts, Bool.and_eq_true] at hs ⊢
      exact ⟨hs.1, ih bs hs.2⟩

theorem listHasSub_nil_left (l : List Char) : listHasSub [] l = true := by
  cases l <;> simp [listHasSub, listStarts]

theorem listHasSub_append (n h r : List Char) (hs : listHasSub n h = true) :
    listHasSub n (h ++ r) = true := by
  induction h with
  | nil =>
    cases n with
    | nil => exact listHasSub_nil_left r
    | cons a as => simp [listHasSub, listStarts] at hs
  | cons b bs ih =>
    simp only [listHasSub, Bool.or_eq_true] at hs
    cases hs with
    | inl hstart =>
      have := listStarts_append n (b :: bs) r hstart
      simp only [List.cons_append, listHasSub, Bool.or_eq_true]
      exact Or.inl (by simpa using this)
    | inr hsub =>
      simp only [List.cons_append, listHasSub, Bool.or_eq_true]
      exact Or.inr (ih hsub)

/-- Substring containment survives appending text on the right. -/
theorem strIn_append (n a b : String) (h : strIn n a = true) :
    strIn n (a ++ b) = true := by
  have : (a ++ b).data = a.data ++ b.data := by
    cases a; cases b; rfl
  simpa [strIn, this] using listHasSub_append n.data a.data b.data h

/-- Python `str.strip()` (drop leading and trailing whitespace). -/
def pyStrip (s : String) : String :=
  String.mk ((s.data.dropWhile Char.isWhitespace).reverse.dropWhile Char.isWhitespace).reverse

/-! ## Input record (`scripts/canonizer_v4.py`)

`track.get('title','')`, `track.get('artist','')`, `track.get('channel_title','')`,
`track.get('view_count', 0) or 0`. -/

structure Track where
  title : String
  artist : String
  channel : String
  view_count : Nat

/-! ## Curated artist tables (`canonizer_v4.py` lines 116-203)

Python `set` literals are transcribed as lists in source order.  Only
membership and existence of a (sub)string match are ever consumed, so the
unspecified set iteration order is immaterial to every result modelled here. -/

def TIER_A_ARTISTS : List String := [
  "burna boy", "wizkid", "davido", "tiwa savage", "rema", "asake",
  "tems", "ckay", "ayra starr", "fireboy dml", "omah lay", "joeboy",
  "olamide", "yemi alade", "mr eazi", "tekno", "kizz daniel",
  "patoranking", "wande coal", "don jazzy", "2baba", "phyno", "flavour",
  "adekunle gold", "simi", "falz", "ladipoe", "blaqbonez", "oxlade",
  "fela kuti", "femi kuti", "made kuti", "seun kuti",
  "black coffee", "master kg", "dj maphorisa", "kabza de small",
  "cassper nyovest", "nasty c", "aka", "sjava", "sho madjozi", "makhadzi",
  "focalistic", "uncle waffles", "dj zinhle", "miriam makeba",
  "tyla", "dbn gogo", "lady du", "young stunna", "major league djz",
  "sarkodie", "stonebwoy", "shatta wale", "black sherif", "king promise",
  "r2bees", "kwesi arthur", "kuami eugene", "kidi", "efya", "becca",
  "gyakie", "amaarae", "darkovibes", "joey b", "e.l",
  "diamond platnumz", "sauti sol", "harmonize", "rayvanny", "ali kiba",
  "zuchu", "mbosso", "nandy", "vanessa mdee", "jux", "alikiba",
  "nyashinski", "khaligraph jones", "otile brown", "nviiri", "bien",
  "eddy kenzo", "jose chameleone", "bebe cool",
  "fally ipupa", "koffi olomide", "ferre gola", "innoss b", "werrason",
  "papa wemba", "awilo longomba", "lokua kanza", "heritier watanabe",
  "youssou ndour", "salif keita", "angelique kidjo", "manu dibango",
  "magic system", "dj arafat", "serge beynaud", "toofan",
  "oumou sangare", "amadou & mariam", "tinariwen",
  "damso", "gims", "maitre gims", "niska", "aya nakamura", "dadju",
  "beyonce", "beyoncÃ©", "rihanna", "drake", "kendrick lamar",
  "jay-z", "jay z", "kanye west", "the weeknd", "sza", "doja cat",
  "cardi b", "nicki minaj", "future", "j cole", "j. cole",
  "frank ocean", "childish gambino", "bruno mars", "usher",
  "michael jackson", "prince", "stevie wonder", "marvin gaye",
  "bob marley", "sean paul", "shaggy", "vybz kartel", "popcaan", "spice",
  "chronixx", "koffee", "protoje", "damian marley", "buju banton",
  "stormzy", "dave", "skepta", "wiley", "j hus", "central cee", "jorja smith",
  "little simz", "headie one", "kano",
  "anitta", "ludmilla", "iza", "seu jorge", "gilberto gil",
  "king sunny ade", "ebenezer obey", "chief commander ebenezer obey",
  "oliver de coque", "osadebe", "chief osita osadebe",
  "franco luambo", "tabu ley rochereau", "sam mangwana",
  "bembeya jazz", "orchestra baobab", "rail band"]

def TIER_B_ARTISTS : List String := [
  "portable", "seyi vibez", "zinoleesky", "naira marley", "mohbad",
  "bella shmurda", "lil kesh", "ycee", "reekado banks", "dice ailes",
  "peruzzi", "zlatan", "mayorkun", "dremo", "teni", "niniola",
  "ruger", "buju", "bnxn", "magixx", "lojay", "victony",
  "a-reece", "emtee", "shane eagle", "kwesta", "blxckie", "costa titch",
  "25k", "rouge", "nadia nakai", "boity", "moozlie",
  "samthing soweto", "sun-el musician", "zakes bantwini", "mi casa",
  "medikal", "strongman", "kofi kinaata", "fameye", "kofi mole",
  "yaw tog", "o\x27kenneth", "jay bahd", "city boy", "kweku flick",
  "tanasha donna", "willy paul", "bahati", "akothee", "size 8",
  "arrow bwoy", "mejja", "trio mio", "ssaru", "femi one",
  "booba", "pnl", "ninho", "jul", "lacrim", "kaaris",
  "mhd", "gradur", "keblack", "dadju", "soolking"]

/-- One row of the `CULTURAL_ICONS` table of `canonizer_v4.py` (lines 189-203):
four 0-5 cultural sub-scores.  Note this v4 table carries no tags field. -/
structure IconScores where
  historical : ℚ
  social : ℚ
  diasporic : ℚ
  preservational : ℚ

def CULTURAL_ICONS : List (String × IconScores) := [
  ("fela kuti", ⟨5, 5, 5, 5⟩),
  ("miriam makeba", ⟨5, 5, 5, 4⟩),
  ("bob marley", ⟨5, 5, 5, 4⟩),
  ("youssou ndour", ⟨4, 4, 4, 5⟩),
  ("salif keita", ⟨4, 3, 4, 5⟩),
  ("king sunny ade", ⟨5, 3, 4, 5⟩),
  ("papa wemba", ⟨4, 3, 4, 5⟩),
  ("franco luambo", ⟨5, 4, 3, 5⟩),
  ("bembeya jazz", ⟨5, 5, 3, 5⟩),
  ("angelique kidjo", ⟨4, 4, 5, 4⟩),
  ("hugh masekela", ⟨5, 5, 4, 4⟩),
  ("brenda fassie", ⟨4, 4, 3, 4⟩),
  ("ladysmith black mambazo", ⟨4, 3, 4, 5⟩)]

/-! ## Content-type detection (`canonizer_v4.py` lines 209-276) -/

def LIVE_INDICATORS : List String := [
  "live", "concert", "performance", "tiny desk", "colors show",
  "colors studios", "a colors show", "glitch", "vevo lift",
  "sessions", "live session", "acoustic session", "on the lot",
  "from studio", "live at", "in studio", "sofar sounds"]

def REMIX_INDICATORS : List String := ["remix", "rmx", "refix", "bootleg", "flip", "edit"]

def DJ_MIX_INDICATORS : List String := [
  "mix", "set", "dj set", "boiler room", "essential mix",
  "radio show", "takeover", "guest mix", "residency",
  "club set", "festival set", "b2b"]

/-- The inline known-DJ list of line 236. -/
def DJ_NAME_TOKENS : List String := ["dj", "black coffee", "uncle waffles", "major league"]

def COMPILATION_INDICATORS : List String := [
  "compilation", "playlist", "best of", "greatest hits",
  "top 10", "top 20", "top 50", "top 100", "non stop",
  "nonstop", "mix 2024", "mix 2025", "hours of"]

def COVER_INDICATORS : List String := ["cover", "rendition", "tribute", "version by"]

def INSTRUMENTAL_INDICATORS : List String := [
  "instrumental", "beat", "karaoke", "backing track",
  "prod by", "prod.", "type beat", "free beat"]

def SLOWED_INDICATORS : List String := ["slowed", "reverb", "chopped", "screwed"]

def ACOUSTIC_INDICATORS : List String := ["acoustic", "unplugged", "stripped"]

def EXTENDED_INDICATORS : List String := ["extended", "club mix", "radio edit"]

/-- `detect_content_type(title, artist, channel)`: ordered keyword rules over
`f"{title} {artist} {channel}".lower()`, first match wins; the DJ-mix group is
additionally gated on `artist.lower()` containing a DJ-identifying token (a
failed gate falls through to the later groups, as in the source). -/
def detect_content_type (title artist channel : String) : String :=
  let text := pyLower (title ++ " " ++ artist ++ " " ++ channel)
  if containsAny text LIVE_INDICATORS then "live"
  else if containsAny text REMIX_INDICATORS then "remix"
  else if containsAny text DJ_MIX_INDICATORS && containsAny (pyLower artist) DJ_NAME_TOKENS then
    "dj_mix"
  else if containsAny text COMPILATION_INDICATORS then "playlist_channel"
  else if containsAny text COVER_INDICATORS then "cover"
  else if containsAny text INSTRUMENTAL_INDICATORS then "instrumental"
  else if containsAny text SLOWED_INDICATORS then "slowed"
  else if containsAny text ACOUSTIC_INDICATORS then "acoustic"
  else if containsAny text EXTENDED_INDICATORS then "extended"
  else "original"

/-! ## Cultural tag detection (`canonizer_v4.py` lines 304-335) -/

def CULTURAL_TAG_KEYWORDS : List (String × List String) := [
  ("anthem", ["anthem", "national", "independence", "unity", "movement", "giant"]),
  ("revolution", ["revolution", "change", "fight", "power", "system", "struggle"]),
  ("liberation", ["freedom", "free", "liberation", "emancipation", "chains"]),
  ("protest", ["protest", "injustice", "police", "government", "corruption", "sars", "endsars"]),
  ("tradition", ["traditional", "heritage", "ancestors", "elders", "culture"]),
  ("roots", ["roots", "origin", "motherland", "home", "village", "homeland"]),
  ("motherland", ["africa", "mama africa", "motherland", "continent"]),
  ("pan-african", ["pan-african", "united africa", "one africa", "together"]),
  ("diaspora", ["diaspora", "abroad", "immigrant", "overseas", "foreign"]),
  ("migration", ["migrate", "journey", "leaving", "travel", "crossing", "japa"]),
  ("homecoming", ["return", "coming back", "welcome home", "finally home"]),
  ("bridge", ["bridge", "connect", "fusion", "blend", "unite"]),
  ("street", ["street", "hood", "block", "corner", "trap", "ghetto"]),
  ("ghetto", ["ghetto", "slum", "struggle", "poverty", "survive"]),
  ("survival", ["survive", "struggle", "make it", "overcome", "hustle"]),
  ("wedding", ["wedding", "marriage", "bride", "ceremony", "iyawo"]),
  ("festival", ["festival", "party", "carnival", "celebration"]),
  ("celebration", ["celebrate", "joy", "happy", "party", "dance"]),
  ("spiritual", ["spirit", "soul", "divine", "god", "faith"]),
  ("prayer", ["prayer", "pray", "lord", "worship", "hallelujah"]),
  ("healing", ["heal", "restoration", "peace", "calm", "recover"])]

/-- `detect_cultural_tags(text)`: every tag whose keyword list has a substring
match in `text.lower()`, in dictionary order, uncapped. -/
def detect_cultural_tags (text : String) : List String :=
  let lower_text := pyLower text
  (CULTURAL_TAG_KEYWORDS.filter (fun p => containsAny lower_text p.2)).map (fun p => p.1)

/-! ## Pattern-based classification (`canonizer_v4.py` lines 506-657) -/

structure CulturalScore where
  historical : ℚ
  social : ℚ
  diasporic : ℚ
  preservational : ℚ
  overall : ℚ

structure AestheticScore where
  innovation : ℚ
  craft : ℚ
  influence : ℚ
  overall : ℚ

structure AccessibilityScore where
  mainstream : ℚ
  specialist : ℚ
  educational : ℚ

/-- `re.sub(r'[^a-z0-9\s]', '', artist).strip()` (line 513): the artist string
is already lower-cased at this point, so the character class keeps `a-z`,
`0-9` and whitespace. -/
def normalizeArtist (artist : String) : String :=
  pyStrip (String.mk (artist.data.filter (fun c =>
    ('a' ≤ c && c ≤ 'z') || ('0' ≤ c && c ≤ '9') || c.isWhitespace)))

/-- Lines 527-545: known-artist tier plus the craft/influence aesthetic
sub-scores set in the same branches.  The first two branches are the
set-membership / name-in-artist checks; the `else` models the two partial-match
`for` loops, whose net effect is last-writer-wins: a B partial match overwrites
an A partial match because the B loop runs after the A loop. -/
def tierCraftInfl (artist artist_normalized : String) : String × ℚ × ℚ :=
  if TIER_A_ARTISTS.contains artist_normalized
      || TIER_A_ARTISTS.any (fun a => strIn a artist) then
    ("A", 4, 3)
  else if TIER_B_ARTISTS.contains artist_normalized
      || TIER_B_ARTISTS.any (fun a => strIn a artist) then
    ("B", 3, 2)
  else if TIER_B_ARTISTS.any (fun a => strIn a artist || strIn artist a) then
    ("B", 0, 0)
  else if TIER_A_ARTISTS.any (fun a => strIn a artist || strIn artist a) then
    ("A", 0, 0)
  else
    ("D", 0, 0)

/-- Lines 562-597: canon level from tier and view count.  All thresholds are
strict `>` comparisons in the source. -/
def canonLevelFor (tier : String) (view_count : Nat) : String :=
  if tier = "A" then
    if 100000000 < view_count then "CORE"
    else if 10000000 < view_count then "ESSENTIAL"
    else if 1000000 < view_count then "DEEP_CUT"
    else "ESSENTIAL"
  else if tier = "B" then
    if 50000000 < view_count then "CORE"
    else if 5000000 < view_count then "ESSENTIAL"
    else if 500000 < view_count then "DEEP_CUT"
    else "DEEP_CUT"
  else if tier = "C" then
    if 10000000 < view_count then "ESSENTIAL"
    else if 1000000 < view_count then "DEEP_CUT"
    else "ARCHIVE"
  else
    if 5000000 < view_count then "DEEP_CUT"
    else if 100000 < view_count then "ARCHIVE"
    else "ECHO"

/-- Lines 607-618: accessibility sub-scores per tier. -/
def accessibilityFor (tier : String) : AccessibilityScore :=
  if tier = "A" then ⟨4, 2, 3⟩
  else if tier = "B" then ⟨3, 3, 3⟩
  else ⟨2, 4, 4⟩

/-- The `CanonScore` record produced by `classify_with_patterns`.  The
regex-based `release_year`/`era` fields and the constant-zero
`percentile`/`velocity` fields are omitted: no property below mentions them. -/
structure CanonScore where
  view_count : Nat
  cultural_significance : CulturalScore
  aesthetic_merit : AestheticScore
  accessibility : AccessibilityScore
  timelessness : ℚ
  final_tier : String
  final_canon_level : String
  confidence : ℚ
  classified_by : String
  content_type : String
  cultural_tags : List String
  aesthetic_tags : List String

/-- `classify_with_patterns(track)` (lines 506-657). -/
def classify_with_patterns (track : Track) : CanonScore :=
  let title := pyLower track.title
  let artist := pyLower track.artist
  let channel := pyLower track.channel
  let artist_normalized := normalizeArtist artist
  let view_count := track.view_count
  let tci := tierCraftInfl artist artist_normalized
  let icon := List.lookup artist_normalized CULTURAL_ICONS
  -- lines 548-554: cultural icons force tier A and seed the four cultural
  -- sub-scores (nothing else)
  let tier := if icon.isSome then "A" else tci.1
  let cult := icon.getD ⟨0, 0, 0, 0⟩
  let content_type := detect_content_type title artist channel
  let cultural_tags := detect_cultural_tags (title ++ " " ++ artist)
  let aesthetic_tags :=
    (if tier = "A" then
      "influential" :: (if 100000000 < view_count then ["timeless"] else [])
    else [])
    ++ (if content_type = "live" then ["virtuosic"] else [])
    ++ (if ["revolution", "liberation", "protest"].any
          (fun tag => cultural_tags.contains tag) then ["lyricism"] else [])
  let confidence0 : ℚ := if tier = "A" || tier = "B" then 0.7 else 0.3
  let confidence1 := if 0 < view_count then confidence0 + 0.1 else confidence0
  { view_count := view_count
    cultural_significance :=
      ⟨cult.historical, cult.social, cult.diasporic, cult.preservational,
        (cult.historical + cult.social + cult.diasporic + cult.preservational) / 4⟩
    aesthetic_merit := ⟨0, tci.2.1, tci.2.2, (0 + tci.2.1 + tci.2.2) / 3⟩
    accessibility := accessibilityFor tier
    timelessness := if tier = "A" && 50000000 < view_count then 4 else 2
    final_tier := tier
    final_canon_level := canonLevelFor tier view_count
    confidence := min confidence1 1
    classified_by := "pattern"
    content_type := content_type
    cultural_tags := cultural_tags
    aesthetic_tags := aesthetic_tags }

/-! ## Hybrid classification (`canonizer_v4.py` lines 663-752) -/

/-- Optional per-field external (LLM) classification, as extracted with
`.get(...)`: an absent key keeps the pattern-based value. -/
structure LLMCultural where
  historical : Option ℚ
  social : Option ℚ
  diasporic : Option ℚ
  preservational : Option ℚ

structure LLMAesthetic where
  innovation : Option ℚ
  craft : Option ℚ
  influence : Option ℚ

structure LLMResult where
  artist_tier : Option String
  canon_level : Option String
  cultural_significance : Option LLMCultural
  aesthetic_merit : Option LLMAesthetic
  cultural_tags : Option (List String)
  aesthetic_tags : Option (List String)

/-- The flat classification record built by `classify_track` (identity fields
and the wall-clock timestamp omitted). -/
structure TrackResult where
  tier : String
  canon_level : String
  content_type : String
  view_count : Nat
  view_percentile : ℚ
  cultural_significance : CulturalScore
  aesthetic_merit : AestheticScore
  accessibility : AccessibilityScore
  timelessness : ℚ
  cultural_tags : List String
  aesthetic_tags : List String
  confidence : ℚ
  classified_by : String
  is_echo : Bool

/-- `classify_track(track, llm_result)` (lines 663-752).  Note the merge
branch replaces the cultural/aesthetic sub-scores field-by-field but never
touches the `overall` keys; tag union `list(set(a + b))` is modelled as
`(a ++ b).eraseDups` (the Python set iteration order is unspecified). -/
def classify_track (track : Track) (llm_result : Option LLMResult) : TrackResult :=
  let p := classify_with_patterns track
  let base : TrackResult :=
    { tier := p.final_tier
      canon_level := p.final_canon_level
      content_type := p.content_type
      view_count := p.view_count
      view_percentile := 0
      cultural_significance := p.cultural_significance
      aesthetic_merit := p.aesthetic_merit
      accessibility := p.accessibility
      timelessness := p.timelessness
      cultural_tags := p.cultural_tags
      aesthetic_tags := p.aesthetic_tags
      confidence := p.confidence
      classified_by := p.classified_by
      is_echo := p.final_canon_level == "ECHO" }
  match llm_result with
  | none => base
  | some llm =>
    let canon := llm.canon_level.getD base.canon_level
    let cs :=
      match llm.cultural_significance with
      | none => base.cultural_significance
      | some c =>
        { base.cultural_significance with
          historical := c.historical.getD base.cultural_significance.historical
          social := c.social.getD base.cultural_significance.social
          diasporic := c.diasporic.getD base.cultural_significance.diasporic
          preservational := c.preservational.getD base.cultural_significance.preservational }
    let am :=
      match llm.aesthetic_merit with
      | none => base.aesthetic_merit
      | some a =>
        { base.aesthetic_merit with
          innovation := a.innovation.getD base.aesthetic_merit.innovation
          craft := a.craft.getD base.aesthetic_merit.craft
          influence := a.influence.getD base.aesthetic_merit.influence }
    { base with
      tier := llm.artist_tier.getD base.tier
      canon_level := canon
      cultural_significance := cs
      aesthetic_merit := am
      cultural_tags :=
        match llm.cultural_tags with
        | none => base.cultural_tags
        | some ts => (base.cultural_tags ++ ts).eraseDups
      aesthetic_tags :=
        match llm.aesthetic_tags with
        | none => base.aesthetic_tags
        | some ts => (base.aesthetic_tags ++ ts).eraseDups
      classified_by := "hybrid"
      confidence := min (p.confidence + 0.3) 1
      is_echo := canon == "ECHO" }

/-! ## View-percentile pass (`canonizer_v4.py` lines 758-775)

The batch is reduced to its list of view counts (`views = [t.get('view_count',
0) or 0 for t in tracks]`); one percentile is produced per track, in batch
order.  Python's `round(x, 2)` is modelled over `ℚ` as round-half-to-even at
two decimal places. -/

/-- `views_sorted = sorted(views)`. -/
def sortNat (l : List Nat) : List Nat := List.insertionSort (fun a b => a ≤ b) l

/-- The inner `get_percentile(v)` closure (lines 764-769): inclusive-`≤` count
over the sorted corpus, divided by its size, times 100; `0` on an empty
corpus. -/
def get_percentile (views_sorted : List Nat) (v : Nat) : ℚ :=
  if views_sorted = [] then 0
  else (((views_sorted.filter (fun x => x ≤ v)).length : ℚ) / (views_sorted.length : ℚ)) * 100

/-- Round to the nearest integer, ties to the even neighbour (the documented
behaviour of Python 3's `round`). -/
def roundHalfEven (q : ℚ) : ℤ :=
  if q - ⌊q⌋ < 1 / 2 then ⌊q⌋
  else if 1 / 2 < q - ⌊q⌋ then ⌊q⌋ + 1
  else if ⌊q⌋ % 2 = 0 then ⌊q⌋ else ⌊q⌋ + 1

/-- `round(x, 2)`. -/
def round2 (q : ℚ) : ℚ := (roundHalfEven (q * 100) : ℚ) / 100

/-- `calculate_view_percentiles(tracks)`: the `view_percentile` written onto
each track of the batch, in order. -/
def calculate_view_percentiles (views : List Nat) : List ℚ :=
  let views_sorted := sortNat views
  views.map (fun v => round2 (get_percentile views_sorted v))

/-! ## Legacy classifier (`scripts/canonizer.py`) -/

def TIER_A_ARTISTS_V1 : List String := [
  "burna boy", "wizkid", "davido", "tiwa savage", "fela kuti", "rema",
  "tems", "ckay", "ayra starr", "asake", "fireboy dml", "olamide",
  "yemi alade", "mr eazi", "tekno", "kizz daniel", "joeboy", "omah lay",
  "patoranking", "wande coal", "don jazzy", "2baba", "phyno", "flavour",
  "black coffee", "master kg", "dj maphorisa", "kabza de small", "miriam makeba",
  "cassper nyovest", "nasty c", "aka", "sjava", "sho madjozi", "makhadzi",
  "amapiano", "focalistic", "uncle waffles", "dj zinhle",
  "sarkodie", "stonebwoy", "shatta wale", "black sherif", "king promise",
  "r2bees", "kwesi arthur", "kuami eugene", "kidi", "efya", "becca",
  "diamond platnumz", "sauti sol", "harmonize", "rayvanny", "ali kiba",
  "zuchu", "mbosso", "nandy", "alikiba", "vanessa mdee", "jux",
  "nyashinski", "khaligraph jones", "otile brown", "nviiri", "bien",
  "fally ipupa", "koffi olomide", "ferre gola", "innoss b", "werrason",
  "papa wemba", "awilo longomba", "lokua kanza",
  "youssou ndour", "salif keita", "angelique kidjo", "manu dibango",
  "magic system", "dj arafat", "serge beynaud", "toofan", "fanicko",
  "rosny kayiba", "amy koita", "oumou sangare",
  "drake", "beyonce", "rihanna", "chris brown", "kendrick lamar",
  "jay-z", "kanye west", "travis scott", "the weeknd", "sza", "doja cat",
  "megan thee stallion", "cardi b", "nicki minaj", "future", "lil baby",
  "gunna", "young thug", "j cole", "21 savage", "tyler the creator",
  "frank ocean", "childish gambino", "bruno mars", "usher", "chris brown",
  "michael jackson", "prince", "stevie wonder", "marvin gaye", "aretha franklin",
  "bob marley", "sean paul", "shaggy", "vybz kartel", "popcaan", "spice",
  "alkaline", "chronixx", "koffee", "protoje", "damian marley", "buju banton",
  "beenie man", "bounty killer", "sizzla",
  "stormzy", "dave", "skepta", "wiley", "j hus", "central cee", "jorja smith",
  "little simz", "ella mai", "ray blk", "ms banks", "headie one",
  "anitta", "ludmilla", "iza", "seu jorge", "gilberto gil", "caetano veloso",
  "jorge ben jor", "tim maia", "mc kevinho", "pabllo vittar",
  "femi kuti", "king sunny ade", "ebenezer obey", "sir shina peters",
  "oliver de coque", "osadebe", "sunny okosun", "onyeka onwenu"]

/-- `normalize_name(name)` (line 147): `name.lower().strip()`. -/
def normalize_name (name : String) : String := pyStrip (pyLower name)

/-- `get_artist_tier(artist)` (lines 151-165).  The second branch scans
`list(TIER_A_ARTISTS)[:50]` — an unspecified 50-element slice of the Python
set, modelled as the first 50 entries in source order; it is unreachable
anyway, since any `tier_a in normalized` hit already returned `'A'` in the
first loop. -/
def get_artist_tier (artist : String) : String :=
  let normalized := normalize_name artist
  if TIER_A_ARTISTS_V1.any (fun a => strIn a normalized || strIn normalized a) then "A"
  else if (TIER_A_ARTISTS_V1.take 50).any (fun a => strIn a normalized) then "B"
  else "D"

def CORE_INDICATORS_V1 : List String :=
  ["official video", "official music video", "official audio", "ft.", "feat.", "featuring"]

set_option linter.unusedVariables false in
/-- `get_canon_level(title, artist, tier)` (lines 167-192).  Both arms of the
tier-A test return `'ESSENTIAL'` in the source; the `artist` parameter is
unused there too. -/
def get_canon_level (title artist tier : String) : String :=
  let title_lower := pyLower title
  if tier = "A" then
    if containsAny title_lower CORE_INDICATORS_V1 then "ESSENTIAL" else "ESSENTIAL"
  else if tier = "B" then "DEEP_CUT"
  else if tier = "C" then "ARCHIVE"
  else "ECHO"

def CULTURAL_KEYWORDS_V1 : List (String × List String) := [
  ("anthem", ["anthem", "national", "independence", "unity", "stand up", "rise up", "we are"]),
  ("revolution",
    ["revolution", "change", "fight", "power to", "system", "struggle", "freedom fighter"]),
  ("liberation",
    ["freedom", "free", "liberation", "independent", "chains", "emancipation", "free at last"]),
  ("protest", ["protest", "injustice", "police", "government", "corruption", "sars", "endsars"]),
  ("tradition",
    ["traditional", "heritage", "ancestors", "elders", "culture", "village", "folklore"]),
  ("roots", ["roots", "origin", "homeland", "native", "indigenous"]),
  ("motherland",
    ["africa", "mama africa", "motherland", "continent", "african queen", "african king"]),
  ("pan-african", ["pan-african", "united africa", "one africa", "african unity"]),
  ("diaspora", ["diaspora", "abroad", "overseas", "japa", "abroad life", "immigrant"]),
  ("homecoming", ["return", "coming home", "back home", "welcome home", "homecoming"]),
  ("bridge", ["fusion", "blend", "mix", "afro-"]),
  ("street", ["street", "hood", "block", "area", "ghetto", "trenches", "outside"]),
  ("hustle", ["hustle", "grind", "money", "paper", "cheddar", "bag", "secure"]),
  ("survival", ["survive", "struggle", "make it", "overcome", "rise", "from nothing"]),
  ("wedding", ["wedding", "marriage", "bride", "groom", "owambe", "owanbe", "asoebi"]),
  ("festival", ["festival", "carnival", "detty", "december", "party", "fiesta"]),
  ("celebration", ["celebrate", "joy", "happy", "blessed", "thankful", "grateful"]),
  ("spiritual", ["spirit", "soul", "divine", "holy", "sacred", "anointed"]),
  ("prayer", ["prayer", "pray", "lord", "god", "jesus", "allah", "worship", "praise"]),
  ("healing", ["heal", "restoration", "peace", "calm", "comfort", "strength"]),
  ("love", ["love", "baby", "darling", "heart", "forever", "together", "my love"]),
  ("heartbreak", ["heartbreak", "pain", "tears", "cry", "hurt", "broken", "miss you"])]

/-- `detect_cultural_tags(title, artist)` of `canonizer.py` (lines 194-205):
the legacy variant that scans `f"{title} {artist}".lower()` and caps the
result at the first 5 tags in dictionary order (`tags[:5]`). -/
def detect_cultural_tags_v1 (title artist : String) : List String :=
  let text := pyLower (title ++ " " ++ artist)
  ((CULTURAL_KEYWORDS_V1.filter (fun p => containsAny text p.2)).map (fun p => p.1)).take 5

/-- The legacy per-track record (lines 218-238); the genre field is omitted
(no property below mentions it). -/
structure TrackResultV1 where
  artist_tier : String
  canon_level : String
  cultural_tags : List String
  is_echo : Bool

/-- `classify_track(track)` of `canonizer.py` (lines 218-238). -/
def classify_track_v1 (track : Track) : TrackResultV1 :=
  let tier := get_artist_tier track.artist
  let canon := get_canon_level track.title track.artist tier
  { artist_tier := tier
    canon_level := canon
    cultural_tags := detect_cultural_tags_v1 track.title track.artist
    is_echo := canon == "ECHO" }

/-- The canon-level order CORE > ESSENTIAL > DEEP_CUT > ARCHIVE > ECHO of the
specification's glossary, as a rank. -/
def canonRank : String → Nat
  | "CORE" => 4
  | "ESSENTIAL" => 3
  | "DEEP_CUT" => 2
  | "ARCHIVE" => 1
  | _ => 0

/-! ## Supporting lemmas on rounding and percentiles -/

theorem roundHalfEven_intCast (n : ℤ) : roundHalfEven (n : ℚ) = n := by
  unfold roundHalfEven
  rw [Int.floor_intCast, if_pos (by norm_num)]

theorem le_roundHalfEven (q : ℚ) : ⌊q⌋ ≤ roundHalfEven q := by
  unfold roundHalfEven
  split_ifs <;> omega

theorem roundHalfEven_le (q : ℚ) : roundHalfEven q ≤ ⌊q⌋ + 1 := by
  unfold roundHalfEven
  split_ifs <;> omega

theorem roundHalfEven_mono {q r : ℚ} (h : q ≤ r) : roundHalfEven q ≤ roundHalfEven r := by
  rcases lt_or_eq_of_le (Int.floor_le_floor h) with hf | hf
  · calc roundHalfEven q ≤ ⌊q⌋ + 1 := roundHalfEven_le q
      _ ≤ ⌊r⌋ := by omega
      _ ≤ roundHalfEven r := le_roundHalfEven r
  · unfold roundHalfEven
    rw [← hf]
    split_ifs <;> first | omega | linarith

theorem round2_mono {q r : ℚ} (h : q ≤ r) : round2 q ≤ round2 r := by
  unfold round2
  have h2 : roundHalfEven (q * 100) ≤ roundHalfEven (r * 100) :=
    roundHalfEven_mono (by linarith)
  have h3 : ((roundHalfEven (q * 100) : ℤ) : ℚ) ≤ ((roundHalfEven (r * 100) : ℤ) : ℚ) := by
    exact_mod_cast h2
  linarith

theorem round2_eq_of_lt_half (q : ℚ) (n : ℤ) (h1 : (n : ℚ) ≤ q * 100)
    (h2 : q * 100 < (n : ℚ) + 1 / 2) : round2 q = (n : ℚ) / 100 := by
  have hf : ⌊q * 100⌋ = n := Int.floor_eq_iff.mpr ⟨h1, by linarith⟩
  unfold round2 roundHalfEven
  rw [hf, if_pos (by linarith)]

theorem round2_intCast (n : ℤ) : round2 (n : ℚ) = n := by
  have h : round2 (n : ℚ) = ((100 * n : ℤ) : ℚ) / 100 := by
    apply round2_eq_of_lt_half
    · exact le_of_eq (by push_cast; ring)
    · have : ((100 * n : ℤ) : ℚ) = (n : ℚ) * 100 := by push_cast; ring
      linarith
  rw [h]
  push_cast
  ring

theorem sortNat_perm (l : List Nat) : List.Perm (sortNat l) l :=
  List.perm_insertionSort _ l

theorem sortNat_length (l : List Nat) : (sortNat l).length = l.length :=
  (sortNat_perm l).length_eq

theorem sortNat_filter_length (l : List Nat) (p : Nat → Bool) :
    ((sortNat l).filter p).length = (l.filter p).length :=
  ((sortNat_perm l).filter p).length_eq

theorem sortNat_ne_nil {l : List Nat} (h : l ≠ []) : sortNat l ≠ [] := by
  intro hs
  apply h
  have hlen := sortNat_length l
  rw [hs] at hlen
  exact List.length_eq_zero.mp hlen.symm

theorem mem_sortNat {l : List Nat} {v : Nat} : v ∈ sortNat l ↔ v ∈ l :=
  (sortNat_perm l).mem_iff

theorem length_filter_le_mono (l : List Nat) {v w : Nat} (h : v ≤ w) :
    (l.filter (fun x => x ≤ v)).length ≤ (l.filter (fun x => x ≤ w)).length := by
  induction l with
  | nil => simp
  | cons a t ih =>
    simp only [List.filter_cons]
    by_cases hav : a ≤ v
    · rw [if_pos (by simpa using hav), if_pos (by simpa using le_trans hav h)]
      simpa using ih
    · rw [if_neg (by simpa using hav)]
      by_cases haw : a ≤ w
      · rw [if_pos (by simpa using haw)]
        simp only [List.length_cons]
        exact le_trans ih (Nat.le_succ _)
      · rw [if_neg (by simpa using haw)]
        exact ih

theorem get_percentile_nonneg (s : List Nat) (v : Nat) : 0 ≤ get_percentile s v := by
  unfold get_percentile
  split_ifs
  · exact le_refl 0
  · positivity

theorem get_percentile_le_100 (s : List Nat) (v : Nat) : get_percentile s v ≤ 100 := by
  unfold get_percentile
  split_ifs with hs
  · norm_num
  · have hlen : 0 < s.length := List.length_pos.mpr hs
    have hcount : (s.filter (fun x => x ≤ v)).length ≤ s.length := s.length_filter_le _
    have h1 : ((s.filter (fun x => x ≤ v)).length : ℚ) / (s.length : ℚ) ≤ 1 := by
      rw [div_le_one (by exact_mod_cast hlen)]
      exact_mod_cast hcount
    linarith

theorem get_percentile_mono (s : List Nat) {v w : Nat} (h : v ≤ w) :
    get_percentile s v ≤ get_percentile s w := by
  unfold get_percentile
  split_ifs with hs
  · exact le_refl 0
  · have hlen : (0 : ℚ) < (s.length : ℚ) := by
      exact_mod_cast List.length_pos.mpr hs
    have hc : ((s.filter (fun x => x ≤ v)).length : ℚ)
        ≤ ((s.filter (fun x => x ≤ w)).length : ℚ) := by
      exact_mod_cast length_filter_le_mono s h
    have hd := (div_le_div_iff_of_pos_right hlen).mpr hc
    exact mul_le_mul_of_nonneg_right hd (by norm_num)

theorem get_percentile_eq_100 (s : List Nat) (hs : s ≠ []) (v : Nat)
    (hall : ∀ w ∈ s, w ≤ v) : get_percentile s v = 100 := by
  unfold get_percentile
  rw [if_neg hs]
  have hf : s.filter (fun x => x ≤ v) = s :=
    List.filter_eq_self.mpr (fun a ha => by simpa using hall a ha)
  rw [hf]
  have hlen : ((s.length : ℚ)) ≠ 0 := by
    have := List.length_pos.mpr hs
    positivity
  rw [div_self hlen]
  norm_num

theorem get_percentile_ge (s : List Nat) (v : Nat) (hv : v ∈ s) :
    100 / (s.length : ℚ) ≤ get_percentile s v := by
  have hs : s ≠ [] := List.ne_nil_of_mem hv
  unfold get_percentile
  rw [if_neg hs]
  have hlen : (0 : ℚ) < (s.length : ℚ) := by
    exact_mod_cast List.length_pos.mpr hs
  have h1 : (1 : ℚ) ≤ ((s.filter (fun x => x ≤ v)).length : ℚ) := by
    have hmem : v ∈ s.filter (fun x => x ≤ v) := List.mem_filter.mpr ⟨hv, by simp⟩
    exact_mod_cast List.length_pos.mpr (List.ne_nil_of_mem hmem)
  have hd := (div_le_div_iff_of_pos_right hlen).mpr h1
  calc 100 / (s.length : ℚ) = 1 / (s.length : ℚ) * 100 := by ring
    _ ≤ ((s.filter (fun x => x ≤ v)).length : ℚ) / (s.length : ℚ) * 100 :=
      mul_le_mul_of_nonneg_right hd (by norm_num)

/-! ## Claims -/

/-- C1: the spec claims the canon level is monotonic non-decreasing in
view_count within a fixed tier, and that raw popularity never demotes a tier-A
artist below ESSENTIAL.  The code violates both: a tier-A track with 0 views
is ESSENTIAL, but raising the views to 2,000,000 demotes it to DEEP_CUT,
strictly below ESSENTIAL in the CORE > ESSENTIAL > DEEP_CUT > ARCHIVE > ECHO
order — contradicting the source's own comment that "A-tier artists are at
least essential". -/
theorem c1_tierA_canon_not_monotone :
    (classify_with_patterns ⟨"", "burna boy", "", 0⟩).final_tier = "A"
    ∧ (classify_with_patterns ⟨"", "burna boy", "", 2000000⟩).final_tier = "A"
    ∧ (classify_with_patterns ⟨"", "burna boy", "", 0⟩).final_canon_level = "ESSENTIAL"
    ∧ (classify_with_patterns ⟨"", "burna boy", "", 2000000⟩).final_canon_level = "DEEP_CUT"
    ∧ canonRank "DEEP_CUT" < canonRank "ESSENTIAL" := by
  refine ⟨?_, ?_, ?_, ?_, ?_⟩ <;> decide

/-- C2 (counterexample): the claim reads the §4.4 thresholds as inclusive
(`≥`), so a tier-A track with exactly 100,000,000 views would be CORE.  The
code compares with strict `>`: such a track is classified ESSENTIAL. -/
theorem c2_counterexample :
    (classify_with_patterns ⟨"", "burna boy", "", 100000000⟩).final_tier = "A"
    ∧ (classify_with_patterns ⟨"", "burna boy", "", 100000000⟩).final_canon_level = "ESSENTIAL"
    ∧ "ESSENTIAL" ≠ "CORE" := by
  refine ⟨?_, ?_, ?_⟩ <;> decide

/-- C2 (amended): for every track resolved to tier A, the canon level follows
the §4.4 rows with STRICT lower-bound thresholds: view_count > 100,000,000
gives CORE; otherwise > 10,000,000 gives ESSENTIAL; otherwise > 1,000,000
gives DEEP_CUT; otherwise ESSENTIAL. -/
theorem c2_tierA_canon_table (track : Track)
    (h : (classify_with_patterns track).final_tier = "A") :
    (classify_with_patterns track).final_canon_level =
      (if 100000000 < track.view_count then "CORE"
       else if 10000000 < track.view_count then "ESSENTIAL"
       else if 1000000 < track.view_count then "DEEP_CUT"
       else "ESSENTIAL") := by
  have e : (classify_with_patterns track).final_canon_level
      = canonLevelFor ((classify_with_patterns track).final_tier) track.view_count := rfl
  rw [e, h]
  simp [canonLevelFor]

theorem c2_witness :
    (classify_with_patterns ⟨"Official Video", "Burna Boy", "", 150000000⟩).final_canon_level
      = "CORE" := by
  rw [c2_tierA_canon_table ⟨"Official Video", "Burna Boy", "", 150000000⟩ (by decide)]
  decide

/-- C3: the spec claims `{artist: "", title: "Official Remix ft. X",
view_count: 0}` resolves to tier D with canon ECHO (and that an artist
matching no curated name is tier D).  The code disagrees on the empty artist:
the empty string is a substring of every curated name, so the v4 partial-match
fallback assigns tier B (its B loop runs after its A loop and wins), giving
canon DEEP_CUT, and the legacy `get_artist_tier` returns "A".  Only the
content_type "remix" part holds. -/
theorem c3_empty_artist_eval :
    (classify_with_patterns ⟨"Official Remix ft. X", "", "", 0⟩).final_tier = "B"
    ∧ (classify_with_patterns ⟨"Official Remix ft. X", "", "", 0⟩).content_type = "remix"
    ∧ (classify_with_patterns ⟨"Official Remix ft. X", "", "", 0⟩).final_canon_level = "DEEP_CUT"
    ∧ get_artist_tier "" = "A"
    ∧ "B" ≠ "D" ∧ "DEEP_CUT" ≠ "ECHO" := by
  refine ⟨?_, ?_, ?_, ?_, ?_, ?_⟩ <;> decide

/-- C8 (counterexample): for `{artist: "Fela Kuti", title: "Zombie",
view_count: 2_000_000}` the claim says `cultural_tags` includes "revolution".
In `canonizer_v4.py` the icon table seeds only the four cultural sub-scores —
it has no tags field — and keyword detection finds no tag in
"zombie fela kuti", so the tag list is empty. -/
theorem c8_counterexample :
    "revolution" ∉ (classify_with_patterns ⟨"Zombie", "Fela Kuti", "", 2000000⟩).cultural_tags := by
  decide

/-- C8 (amended): the cultural-icon override fires for Fela Kuti — tier A and
`cultural_significance.historical = 5` — but seeds no tags: `cultural_tags`
is empty (the v4 `CULTURAL_ICONS` table carries only the four sub-scores). -/
theorem c8_fela_kuti_eval :
    (classify_with_patterns ⟨"Zombie", "Fela Kuti", "", 2000000⟩).final_tier = "A"
    ∧ (classify_with_patterns ⟨"Zombie", "Fela Kuti", "", 2000000⟩).cultural_significance.historical
        = 5
    ∧ (classify_with_patterns ⟨"Zombie", "Fela Kuti", "", 2000000⟩).cultural_tags = [] := by
  refine ⟨?_, ?_, ?_⟩ <;> decide

/-- C5: in every final classification record — v4 pattern-only, v4 after the
hybrid merge (which recomputes the flag from the possibly overridden canon
level), and the legacy classifier — `is_echo` holds iff `canon_level` is
"ECHO". -/
theorem c5_is_echo_iff :
    (∀ (track : Track) (llm_result : Option LLMResult),
        (classify_track track llm_result).is_echo
          = ((classify_track track llm_result).canon_level == "ECHO"))
    ∧ (∀ track : Track,
        (classify_track_v1 track).is_echo
          = ((classify_track_v1 track).canon_level == "ECHO")) := by
  constructor
  · intro track llm_result
    cases llm_result <;> rfl
  · intro track
    rfl

/-- C4 (amended): `cultural_significance.overall` and `aesthetic_merit.overall`
are the arithmetic means of the PATTERN-based sub-scores, computed once during
pattern classification; the hybrid merge replaces sub-scores field-by-field
but never recomputes `overall`, which stays at its pattern-time value. -/
theorem c4_overall_stale_after_merge (track : Track) (llm_result : Option LLMResult) :
    (classify_with_patterns track).cultural_significance.overall
        = ((classify_with_patterns track).cultural_significance.historical
            + (classify_with_patterns track).cultural_significance.social
            + (classify_with_patterns track).cultural_significance.diasporic
            + (classify_with_patterns track).cultural_significance.preservational) / 4
    ∧ (classify_with_patterns track).aesthetic_merit.overall
        = ((classify_with_patterns track).aesthetic_merit.innovation
            + (classify_with_patterns track).aesthetic_merit.craft
            + (classify_with_patterns track).aesthetic_merit.influence) / 3
    ∧ (classify_track track llm_result).cultural_significance.overall
        = (classify_with_patterns track).cultural_significance.overall
    ∧ (classify_track track llm_result).aesthetic_merit.overall
        = (classify_with_patterns track).aesthetic_merit.overall := by
  refine ⟨rfl, rfl, ?_, ?_⟩
  · rcases llm_result with _ | ⟨t, cl, cs, am, ct, atg⟩
    · rfl
    · cases cs <;> rfl
  · rcases llm_result with _ | ⟨t, cl, cs, am, ct, atg⟩
    · rfl
    · cases am <;> rfl

/-- C4 (counterexample): after a hybrid merge that overrides `historical` to
5 on a track whose pattern sub-scores are all 0, `overall` remains 0 and is
no longer the mean of the (merged) sub-scores — the claim that the overall
fields are recomputed after any hybrid override is false. -/
theorem c4_counterexample :
    ¬ ((classify_track ⟨"", "", "", 0⟩
          (some ⟨none, none, some ⟨some 5, none, none, none⟩,
            none, none, none⟩)).cultural_significance.overall
        = ((classify_track ⟨"", "", "", 0⟩
              (some ⟨none, none, some ⟨some 5, none, none, none⟩,
                none, none, none⟩)).cultural_significance.historical
            + (classify_track ⟨"", "", "", 0⟩
                (some ⟨none, none, some ⟨some 5, none, none, none⟩,
                  none, none, none⟩)).cultural_significance.social
            + (classify_track ⟨"", "", "", 0⟩
                (some ⟨none, none, some ⟨some 5, none, none, none⟩,
                  none, none, none⟩)).cultural_significance.diasporic
            + (classify_track ⟨"", "", "", 0⟩
                (some ⟨none, none, some ⟨some 5, none, none, none⟩,
                  none, none, none⟩)).cultural_significance.preservational) / 4) := by
  intro h
  have h1 : (classify_track ⟨"", "", "", 0⟩
      (some ⟨none, none, some ⟨some 5, none, none, none⟩,
        none, none, none⟩)).cultural_significance.historical = 5 := by decide
  have h2 : (classify_track ⟨"", "", "", 0⟩
      (some ⟨none, none, some ⟨some 5, none, none, none⟩,
        none, none, none⟩)).cultural_significance.social = 0 := by decide
  have h3 : (classify_track ⟨"", "", "", 0⟩
      (some ⟨none, none, some ⟨some 5, none, none, none⟩,
        none, none, none⟩)).cultural_significance.diasporic = 0 := by decide
  have h4 : (classify_track ⟨"", "", "", 0⟩
      (some ⟨none, none, some ⟨some 5, none, none, none⟩,
        none, none, none⟩)).cultural_significance.preservational = 0 := by decide
  have h5 : (classify_track ⟨"", "", "", 0⟩
      (some ⟨none, none, some ⟨some 5, none, none, none⟩,
        none, none, none⟩)).cultural_significance.overall = ((0 : ℚ) + 0 + 0 + 0) / 4 := rfl
  rw [h1, h2, h3, h4, h5] at h
  norm_num at h

/-- `str.lower()` distributes over concatenation. -/
theorem pyLower_append (a b : String) : pyLower (a ++ b) = pyLower a ++ pyLower b := by
  cases a with
  | mk da =>
    cases b with
    | mk db =>
      show String.mk ((da ++ db).map Char.toLower)
          = String.mk (da.map Char.toLower) ++ String.mk (db.map Char.toLower)
      show String.mk ((da ++ db).map Char.toLower)
          = String.mk (da.map Char.toLower ++ db.map Char.toLower)
      rw [List.map_append]

/-- C7: content-type detection applies its rule groups in fixed order with
first match winning — any input whose concatenated lower-cased text contains
both a live keyword and a remix keyword yields "live"; and when no rule
group's keyword list matches at all, the fallback is "original". -/
theorem c7_content_type_precedence (title artist channel : String) :
    (containsAny (pyLower (title ++ " " ++ artist ++ " " ++ channel)) LIVE_INDICATORS = true
        ∧ containsAny (pyLower (title ++ " " ++ artist ++ " " ++ channel)) REMIX_INDICATORS = true →
      detect_content_type title artist channel = "live")
    ∧ ((∀ inds ∈ [LIVE_INDICATORS, REMIX_INDICATORS, DJ_MIX_INDICATORS,
          COMPILATION_INDICATORS, COVER_INDICATORS, INSTRUMENTAL_INDICATORS,
          SLOWED_INDICATORS, ACOUSTIC_INDICATORS, EXTENDED_INDICATORS],
          containsAny (pyLower (title ++ " " ++ artist ++ " " ++ channel)) inds = false) →
      detect_content_type title artist channel = "original") := by
  constructor
  · rintro ⟨hlive, _⟩
    simp [detect_content_type, hlive]
  · intro h
    have hlive := h LIVE_INDICATORS (by simp)
    have hremix := h REMIX_INDICATORS (by simp)
    have hdj := h DJ_MIX_INDICATORS (by simp)
    have hcomp := h COMPILATION_INDICATORS (by simp)
    have hcover := h COVER_INDICATORS (by simp)
    have hinstr := h INSTRUMENTAL_INDICATORS (by simp)
    have hslow := h SLOWED_INDICATORS (by simp)
    have hacous := h ACOUSTIC_INDICATORS (by simp)
    have hext := h EXTENDED_INDICATORS (by simp)
    simp [detect_content_type, hlive, hremix, hdj, hcomp, hcover, hinstr, hslow, hacous, hext]

theorem c7_witness :
    detect_content_type "My Song Live Remix" "Somebody" "" = "live"
    ∧ detect_content_type "Nothing Here" "Somebody" "" = "original" := by
  constructor
  · exact (c7_content_type_precedence "My Song Live Remix" "Somebody" "").1
      (by constructor <;> decide)
  · exact (c7_content_type_precedence "Nothing Here" "Somebody" "").2
      (by intro inds hmem; fin_cases hmem <;> decide)

/-- C9 (amended): for the uncapped v4 detector, tag detection is monotone
under appending text — a tag detected from the title alone is still detected
after more text is appended.  (The capped legacy variant violates this, see
the counterexample.) -/
theorem c9_tag_monotone (text ext tag : String)
    (h : tag ∈ detect_cultural_tags text) :
    tag ∈ detect_cultural_tags (text ++ ext) := by
  unfold detect_cultural_tags at h ⊢
  simp only [List.mem_map] at h ⊢
  obtain ⟨p, hp, rfl⟩ := h
  refine ⟨p, ?_, rfl⟩
  simp only [List.mem_filter] at hp ⊢
  refine ⟨hp.1, ?_⟩
  have h2 := hp.2
  unfold containsAny at h2 ⊢
  simp only [List.any_eq_true] at h2 ⊢
  obtain ⟨kw, hkw, hin⟩ := h2
  refine ⟨kw, hkw, ?_⟩
  rw [pyLower_append]
  exact strIn_append kw (pyLower text) (pyLower ext) hin

theorem c9_witness : "motherland" ∈ detect_cultural_tags ("africa" ++ " my love") :=
  c9_tag_monotone "africa" " my love" "motherland" (by decide)

/-- C9 (counterexample): the legacy 5-capped variant is NOT monotone under
appending text: the title alone yields 5 tags including "love" (the last in
dictionary order); appending an artist that triggers the earlier tag "anthem"
pushes "love" past the cap and it disappears. -/
theorem c9_counterexample :
    "love" ∈ detect_cultural_tags_v1 "roots africa diaspora street love" ""
    ∧ "love" ∉ detect_cultural_tags_v1 "roots africa diaspora street love" "anthem" := by
  constructor <;> decide

/-- C6: for a non-empty batch, (i) each track's stored `view_percentile` is
the inclusive-`≤` count of batch view counts not exceeding its own, divided by
the batch size, times 100, rounded to 2 decimals (ties share a percentile
because the value is a function of the view count alone); (ii) the percentile
is non-decreasing in view count; (iii) it lies in [0, 100]; (iv) the strict
maximum receives exactly 100. -/
theorem c6_view_percentiles (views : List Nat) (hne : views ≠ []) :
    (calculate_view_percentiles views
        = views.map (fun v => round2 ((((views.filter (fun x => x ≤ v)).length : ℚ)
            / (views.length : ℚ)) * 100)))
    ∧ (∀ v w : Nat, v ≤ w →
        round2 (get_percentile (sortNat views) v) ≤ round2 (get_percentile (sortNat views) w))
    ∧ (∀ v : Nat, 0 ≤ round2 (get_percentile (sortNat views) v)
        ∧ round2 (get_percentile (sortNat views) v) ≤ 100)
    ∧ (∀ v ∈ views, (∀ w ∈ views, w ≠ v → w < v) →
        round2 (get_percentile (sortNat views) v) = 100) := by
  have h0 : round2 (0 : ℚ) = 0 := by exact_mod_cast round2_intCast 0
  have h100 : round2 (100 : ℚ) = 100 := by exact_mod_cast round2_intCast 100
  refine ⟨?_, ?_, ?_, ?_⟩
  · unfold calculate_view_percentiles
    refine List.map_congr_left (fun v hv => ?_)
    unfold get_percentile
    rw [if_neg (sortNat_ne_nil hne), sortNat_filter_length, sortNat_length]
  · intro v w hvw
    exact round2_mono (get_percentile_mono (sortNat views) hvw)
  · intro v
    constructor
    · calc (0 : ℚ) = round2 0 := h0.symm
        _ ≤ round2 (get_percentile (sortNat views) v) :=
          round2_mono (get_percentile_nonneg _ _)
    · calc round2 (get_percentile (sortNat views) v) ≤ round2 100 :=
          round2_mono (get_percentile_le_100 _ _)
        _ = 100 := h100
  · intro v hv hmax
    have hall : ∀ w ∈ sortNat views, w ≤ v := by
      intro w hw
      rcases eq_or_ne w v with rfl | hne2
      · exact le_refl w
      · exact le_of_lt (hmax w (mem_sortNat.mp hw) hne2)
    rw [get_percentile_eq_100 (sortNat views) (sortNat_ne_nil hne) v hall]
    exact h100

theorem c6_witness :
    calculate_view_percentiles [0, 1, 2, 3, 4, 5, 6, 7, 8, 9]
      = [10, 20, 30, 40, 50, 60, 70, 80, 90, 100] := by
  rw [(c6_view_percentiles [0, 1, 2, 3, 4, 5, 6, 7, 8, 9] (by decide)).1]
  have r2 : ∀ n : ℕ, round2 ((n : ℚ)) = (n : ℚ) := fun n => by
    exact_mod_cast round2_intCast (n : ℤ)
  simp only [List.map_cons, List.map_nil]
  norm_num [List.filter]
  refine ⟨?_, ?_, ?_, ?_, ?_, ?_, ?_, ?_, ?_, ?_⟩ <;>
    first
      | exact_mod_cast r2 10 | exact_mod_cast r2 20 | exact_mod_cast r2 30
      | exact_mod_cast r2 40 | exact_mod_cast r2 50 | exact_mod_cast r2 60
      | exact_mod_cast r2 70 | exact_mod_cast r2 80 | exact_mod_cast r2 90
      | exact_mod_cast r2 100

/-- C10 (amended): in every non-empty batch the inclusive-`≤` count includes
the track's own view count, so the UNROUNDED percentile is at least 100/n
(n the batch size), which is strictly positive; the stored value, however, is
rounded to 2 decimals and is only guaranteed non-negative — it can round down
to exactly 0 (see the counterexample). -/
theorem c10_percentile_lower_bound (views : List Nat) (v : Nat) (hv : v ∈ views) :
    100 / (views.length : ℚ) ≤ get_percentile (sortNat views) v
    ∧ 0 < 100 / (views.length : ℚ)
    ∧ 0 ≤ round2 (get_percentile (sortNat views) v) := by
  have hmem : v ∈ sortNat views := mem_sortNat.mpr hv
  have h1 := get_percentile_ge (sortNat views) v hmem
  rw [sortNat_length] at h1
  refine ⟨h1, ?_, ?_⟩
  · have hpos : (0 : ℚ) < (views.length : ℚ) := by
      exact_mod_cast List.length_pos.mpr (List.ne_nil_of_mem hv)
    positivity
  · have h0 : round2 (0 : ℚ) = 0 := by exact_mod_cast round2_intCast 0
    calc (0 : ℚ) = round2 0 := h0.symm
      _ ≤ round2 (get_percentile (sortNat views) v) :=
        round2_mono (get_percentile_nonneg _ _)

theorem c10_witness :
    100 / (([5] : List Nat).length : ℚ) ≤ get_percentile (sortNat [5]) 5
    ∧ 0 < 100 / (([5] : List Nat).length : ℚ)
    ∧ 0 ≤ round2 (get_percentile (sortNat [5]) 5) :=
  c10_percentile_lower_bound [5] 5 (by decide)

/-- C10 (counterexample): the claim that every track's stored
`view_percentile` is at least 100/n, strictly positive, and never attains the
lower endpoint 0 is false: in a batch of 20001 tracks whose unique minimum is
0 views, that track's unrounded percentile 100/20001 ≈ 0.005 rounds down to
exactly 0. -/
theorem c10_counterexample :
    (calculate_view_percentiles (0 :: List.replicate 20000 1)).head? = some 0 := by
  have hne : (0 :: List.replicate 20000 1 : List Nat) ≠ [] := List.cons_ne_nil 0 _
  have hsne : sortNat (0 :: List.replicate 20000 1) ≠ [] := sortNat_ne_nil hne
  have hlen : ((sortNat (0 :: List.replicate 20000 1)).length) = 20001 := by
    rw [sortNat_length, List.length_cons, List.length_replicate]
  have hcount : ((sortNat (0 :: List.replicate 20000 1)).filter (fun x => x ≤ 0)).length = 1 := by
    rw [sortNat_filter_length, List.filter_cons_of_pos (by decide), List.filter_replicate,
      if_neg (by decide), List.length_cons, List.length_nil]
  have hq : get_percentile (sortNat (0 :: List.replicate 20000 1)) 0 = (1 : ℚ) / 20001 * 100 := by
    unfold get_percentile
    rw [if_neg hsne, hcount, hlen]
    norm_num
  have hmap : calculate_view_percentiles (0 :: List.replicate 20000 1)
      = round2 (get_percentile (sortNat (0 :: List.replicate 20000 1)) 0)
        :: (List.replicate 20000 1).map
            (fun v => round2 (get_percentile (sortNat (0 :: List.replicate 20000 1)) v)) := rfl
  rw [hmap, List.head?_cons, hq]
  have h := round2_eq_of_lt_half ((1 : ℚ) / 20001 * 100) 0 (by norm_num) (by norm_num)
  rw [h]
  norm_num
